import Mathlib

/-!
Verification of the contact-form pipeline of the Personal-Website repository.

Server side (routes/personalData.js): `formatPhone`, the express-validator
rule chain `validationRules`, the xss sanitization, the HTML email template,
the POST handler of `router.post`, and the per-endpoint rate limiter
`contactLimiter` mounted in front of it.

Client side (scripts.js): `openContactForm`, the SweetAlert2 submit flow with
its session guard, local validation, fetch call and error surfacing.

Strings are embedded as Lean `String` (a structure holding a `List Char`);
string operations that the standard library does not kernel-reduce (trim,
lower-casing) are given as explicit list-level definitions so that every
definition is executable.
-/

/-- JavaScript `String.prototype.trim` / the express-validator `trim()`
sanitizer: remove whitespace from both ends of the string. -/
def jsTrim (s : String) : String :=
  ⟨((s.data.dropWhile Char.isWhitespace).reverse.dropWhile Char.isWhitespace).reverse⟩

/-- JavaScript truthiness of `a || b` for strings: `b` when `a` is empty,
otherwise `a`. Used for `req.body.phone || ""` and `data.message || ...`. -/
def jsOrStr (a b : String) : String :=
  if a = "" then b else a

/-- JavaScript truthiness of an `Option String` (a possibly-absent or
null field): `none` and the empty string are falsy. -/
def jsTruthy (v : Option String) : Bool :=
  match v with
  | none => false
  | some s => !(s = "")

/-- Splits a character list at every occurrence of the separator `c`
(occurrences of the separator are not kept). `splitChar c []` is `[[]]`,
matching the behaviour of string splitting on an empty string. -/
def splitChar (c : Char) : List Char → List (List Char)
  | [] => [[]]
  | a :: as =>
    match splitChar c as with
    | [] => if a = c then [[], []] else [[a]]
    | g :: gs => if a = c then [] :: g :: gs else (a :: g) :: gs

/-- One position of a substring search: does `pat` occur in `s`? -/
def containsSubstr (s pat : String) : Bool :=
  (List.range (s.data.length + 1)).any (fun i => pat.data.isPrefixOf (s.data.drop i))

/-!
## routes/personalData.js — phone formatting

```js
const formatPhone = (phone) => {
  const digits = phone.replace(/\D/g, "");
  if (digits.length === 10) {
    return `${digits.slice(0, 3)}-${digits.slice(3, 6)}-${digits.slice(6)}`;
  }
  return "None Provided";
};
```
`phone.replace(/\D/g, "")` keeps exactly the decimal digits `0`-`9`,
which is what `Char.isDigit` recognises.
-/

def formatPhone (phone : String) : String :=
  let digits : List Char := phone.data.filter Char.isDigit
  if digits.length = 10 then
    (⟨digits.take 3⟩ : String) ++ "-" ++ ⟨(digits.drop 3).take 3⟩ ++ "-" ++ ⟨digits.drop 6⟩
  else
    "None Provided"

/-!
## routes/personalData.js — validation chain

The dependencies `express-validator`/`validator.js` and `xss` are not part of
this repository; only their configuration is. Their behaviour is modelled
below from the specification where the claims depend on it.
-/

/-- Modelled from the spec: `validator.js` `isEmail` (a dependency whose code
is not in this repository). The spec characterises it as "a standard syntax
rule" for `local@domain.tld`: exactly one `@`, a non-empty local part, and a
domain made of at least two non-empty dot-separated labels, with no
whitespace anywhere. -/
def isEmail (s : String) : Bool :=
  match splitChar '@' s.data with
  | [loc, domain] =>
    !loc.isEmpty && loc.all (fun c => !c.isWhitespace) &&
    domain.all (fun c => !c.isWhitespace) &&
    (match splitChar '.' domain with
     | labels => decide (2 ≤ labels.length) && labels.all (fun l => !l.isEmpty))
  | _ => false

/-- Modelled from the spec: the `normalizeEmail` sanitizer of `validator.js`
(a dependency whose code is not in this repository). The spec describes it
as normalization to a lower-cased canonical form. -/
def normalizeEmail (s : String) : String :=
  ⟨s.data.map Char.toLower⟩

/-- One character of the sanitizer: markup delimiters are escaped to HTML
entities, every other character passes through. -/
def escapeChar (c : Char) : List Char :=
  if c = '<' then "&lt;".data
  else if c = '>' then "&gt;".data
  else [c]

/-- Modelled from the spec: the `xss` sanitizer library (a dependency whose
code is not in this repository). The spec describes it as an "HTML/script-
stripping sanitizer" that neutralizes embedded markup before the value is
used; modelled as escaping the markup delimiters of every tag. -/
def xss (s : String) : String :=
  ⟨s.data.flatMap escapeChar⟩

/-- The parsed JSON request body as the route sees it: each field either
present (a string) or absent. -/
structure RequestBody where
  name : Option String
  email : Option String
  phone : Option String
  subject : Option String
  message : Option String
deriving DecidableEq

/-- express-validator reads a missing field as the empty string, and the
`trim()` sanitizer that begins every chain of `validationRules` replaces the
value with its trimmed form; this is the value all later validators (and the
route handler) see. -/
def trimmedField (v : Option String) : String :=
  jsTrim (v.getD "")

/-- One entry of `errors.array()`: the offending field (`param`) and the
validator's message (`msg`). -/
structure FieldError where
  param : String
  msg : String
deriving DecidableEq

/-- The errors contributed by one validator of a chain: one entry when its
condition fires, none otherwise. -/
def ruleErrors (cond : Prop) [Decidable cond] (param msg : String) : List FieldError :=
  if cond then [⟨param, msg⟩] else []

/-- `validator.js` default message for a validator without `withMessage`. -/
def defaultMsg : String := "Invalid value"

/-!
```js
const validationRules = [
  body("name").trim().notEmpty().withMessage("Name is required.").isLength({ max: 100 }),
  body("email").trim().isEmail().withMessage("A valid email is required.").normalizeEmail(),
  body("phone").trim().isLength({ max: 30 }),
  body("message").trim().notEmpty().withMessage("Message is required.").isLength({ max: 5000 }),
  body("subject").trim().notEmpty().withMessage("Subject is required.").isLength({ max: 200 }),
];
```
Each chain runs all of its validators (no `bail()`), each failing validator
contributing one error entry, and the chains run in the order listed.
-/

def validationErrors (b : RequestBody) : List FieldError :=
  ruleErrors (trimmedField b.name = "") "name" "Name is required." ++
  ruleErrors (100 < (trimmedField b.name).length) "name" defaultMsg ++
  ruleErrors (isEmail (trimmedField b.email) = false) "email" "A valid email is required." ++
  ruleErrors (30 < (trimmedField b.phone).length) "phone" defaultMsg ++
  ruleErrors (trimmedField b.message = "") "message" "Message is required." ++
  ruleErrors (5000 < (trimmedField b.message).length) "message" defaultMsg ++
  ruleErrors (trimmedField b.subject = "") "subject" "Subject is required." ++
  ruleErrors (200 < (trimmedField b.subject).length) "subject" defaultMsg

/-!
## routes/personalData.js — the POST handler
-/

/-- Outcome of the single `transporter.sendMail` attempt: resolved, or
rejected with a transport error carrying internal detail. -/
inductive DispatchResult where
  | ok
  | fail (errDetail : String)
deriving DecidableEq

/-- The JSON shapes the route can answer with. -/
inductive ResponseBody where
  /-- `succ` and `message` of a JSON reply carrying `success`/`message`. -/
  | msgBody (succ : Bool) (message : String)
  /-- the 400 reply carrying `success: false` and `errors.array()`. -/
  | errorsBody (errors : List FieldError)
  /-- the rate limiter's JSON reply carrying an `error` string. -/
  | rateLimited (error : String)
deriving DecidableEq

/-- What one request to the contact route produced: HTTP status, JSON body,
how many times `transporter.sendMail` was invoked, and the `html` and
`subject` handed to it (when it was invoked). -/
structure HandlerResult where
  status : Nat
  body : ResponseBody
  dispatchCalls : Nat
  sentHtml : Option String
  sentSubject : Option String
deriving DecidableEq

/-- The template literal passed as `html` to `transporter.sendMail`. -/
def emailHtml (name email formattedPhone sendDate message : String) : String :=
  "\n        <p><strong>From:</strong> " ++ name ++
  "</p>\n        <p><strong>Email:</strong> " ++ email ++
  "</p>\n        <p><strong>Phone:</strong> " ++ formattedPhone ++
  "</p>\n        <p><strong>Date:</strong> " ++ sendDate ++
  "</p>\n        <hr>\n        <p>" ++ message ++ "</p>\n      "

/-- The body of `router.post("/", ...)` after the rate limiter and the
validation chains have run: return 400 with `errors.array()` when validation
failed (the source tests `!errors.isEmpty()` and returns early); otherwise
sanitize every field with `xss`, derive `formattedPhone`, build the HTML
email and attempt the single dispatch. `today` stands for
`new Date().toISOString().slice(0, 10)` and `d` for the outcome of the
`await transporter.sendMail(...)` call. -/
def handleSubmit (b : RequestBody) (d : DispatchResult) (today : String) : HandlerResult :=
  let errors := validationErrors b
  if errors.isEmpty then
    let name := xss (trimmedField b.name)
    let email := xss (normalizeEmail (trimmedField b.email))
    let phone := xss (jsOrStr (trimmedField b.phone) "")
    let message := xss (trimmedField b.message)
    let subject := xss (trimmedField b.subject)
    let formattedPhone := formatPhone phone
    let html := emailHtml name email formattedPhone today message
    match d with
    | .ok =>
      { status := 200, body := .msgBody true "Message sent successfully.",
        dispatchCalls := 1, sentHtml := some html, sentSubject := some subject }
    | .fail _ =>
      { status := 500, body := .msgBody false "Failed to send message.",
        dispatchCalls := 1, sentHtml := some html, sentSubject := some subject }
  else
    { status := 400, body := .errorsBody errors,
      dispatchCalls := 0, sentHtml := none, sentSubject := none }

/-!
## routes/personalData.js — the per-endpoint rate limiter

```js
const contactLimiter = rateLimit({
  windowMs: 15 * 60 * 1000,
  max: 5,
  ...
  message: { error: "Too many submissions. Please try again later." },
});
```
-/

/-- `windowMs: 15 * 60 * 1000` — the 15-minute window, in milliseconds. -/
def windowMs : Nat := 15 * 60 * 1000

/-- `max: 5` — the per-address cap of the contact endpoint. -/
def contactLimiterMax : Nat := 5

/-- The fixed `message` body of the contact limiter. -/
def contactLimiterMessage : String := "Too many submissions. Please try again later."

/-- The rate limiter's reply: HTTP 429 with the fixed message, no dispatch. -/
def rateLimitedResult : HandlerResult :=
  { status := 429, body := .rateLimited contactLimiterMessage,
    dispatchCalls := 0, sentHtml := none, sentSubject := none }

/-- A request at time `now` still sees an earlier accepted request at time
`past` when `past` lies inside the 15-minute window ending at `now`. -/
def withinWindow (now past : Nat) : Bool :=
  now < past + windowMs

/-- Modelled from the spec: the `express-rate-limit` middleware internals are
a dependency whose code is not in this repository; only the configuration
above is. The spec describes the gate as "per client address, sliding
15-minute window, max 5 accepted requests". The state for one client address
is the list of timestamps of its accepted requests; a new request first drops
the timestamps that have slid out of the window, is accepted when fewer than
`contactLimiterMax` remain, and otherwise is answered with the fixed 429
reply without reaching the route handler. -/
def contactEndpointStep (accepted : List Nat) (t : Nat) (b : RequestBody)
    (d : DispatchResult) (today : String) : HandlerResult × List Nat :=
  let recent := accepted.filter (withinWindow t)
  if recent.length < contactLimiterMax then
    (handleSubmit b d today, t :: recent)
  else
    (rateLimitedResult, recent)

/-- Runs a sequence of timed requests from one client address through the
rate-limited contact endpoint, threading the limiter state. -/
def processContact (accepted : List Nat) (today : String) :
    List (Nat × RequestBody × DispatchResult) → List HandlerResult
  | [] => []
  | (t, b, d) :: rest =>
    let step := contactEndpointStep accepted t b d today
    step.1 :: processContact step.2 today rest

/-!
## scripts.js — the client submit flow (`openContactForm`)
-/

/-- The parsed JSON the client reads from `response.json()`:
`data.success` (absent is falsy, as in `!data.success`) and `data.message`. -/
structure ServerJson where
  success : Bool
  message : Option String
deriving DecidableEq

/-- Outcome of the single `fetch` call: the promise resolves with a response
(`ok` flag and parsed JSON body), or rejects because the request could not
complete — in which case the thrown `TypeError` carries the literal message
`"Failed to fetch"` that the catch block tests for. -/
inductive FetchResult where
  | response (ok : Bool) (json : ServerJson)
  | networkError
deriving DecidableEq

/-- How one run of the flow ended, as shown to the user. -/
inductive ClientOutcome where
  /-- the info dialog "You have already submitted a message this session." -/
  | alreadySent
  /-- `Swal.showValidationMessage(m)` fired and the dialog stayed open. -/
  | validationFailure (m : String)
  /-- the success dialog; the session flag was set. -/
  | success
deriving DecidableEq

/-- What one run of `openContactForm` did: the outcome, how many `fetch`
calls were made, whether the form dialog was opened, the JSON body sent (as
key/value pairs, in order), and the session flag afterwards. -/
structure ClientResult where
  outcome : ClientOutcome
  fetchCalls : Nat
  formOpened : Bool
  sentBody : Option (List (String × String))
  contactSentAfter : Option String
deriving DecidableEq

/-- `JSON.stringify({ name, email, subject, message })` — the POST body is
built from exactly these four shorthand properties, in this order. -/
def clientPostJson (name email subject message : String) : List (String × String) :=
  [("name", name), ("email", email), ("subject", subject), ("message", message)]

/-- The client-side email check
`/^[^\s@]+@[^\s@]+\.[^\s@]+$/.test(email)`: a non-empty run of characters
that are neither whitespace nor `@`, one `@`, and a domain part (again free
of whitespace and `@`) containing a dot with at least one character on each
side. Splitting at `@` yields exactly two parts precisely when the string
has exactly one `@`; the dot condition says `.` occurs at an interior
position of the part after the `@`. -/
def emailRegexTest (s : String) : Bool :=
  match splitChar '@' s.data with
  | [loc, domain] =>
    !loc.isEmpty && loc.all (fun c => !c.isWhitespace) &&
    domain.all (fun c => !c.isWhitespace) &&
    ((domain.drop 1).dropLast.contains '.')
  | _ => false

/-- The string surfaced by `Swal.showValidationMessage` in the catch block:
```js
error.message === "Failed to fetch"
  ? "Network error. Please check your connection."
  : error.message || "Failed to send message."
```
-/
def surfacedMessage (errMsg : String) : String :=
  if errMsg = "Failed to fetch" then "Network error. Please check your connection."
  else jsOrStr errMsg "Failed to send message."

/-- The body of `openContactForm` in scripts.js. `session` is
`sessionStorage.getItem("contactSent")` (truthy check short-circuits to the
"Already Sent" info dialog with no form and no fetch). Otherwise the form
opens with the four inputs; `preConfirm` trims them, checks all four
non-empty and the email against the regex, and only then performs the one
`fetch`, whose outcome `fetch` parameterizes. A response with `!response.ok
|| !data.success` throws `new Error(data.message || "Failed to send
message.")`; the catch block surfaces the message via `surfacedMessage`. On
success the flag `contactSent` is set to `"true"`. -/
def openContactForm (session : Option String) (name email subject message : String)
    (fetch : FetchResult) : ClientResult :=
  if jsTruthy session then
    { outcome := .alreadySent, fetchCalls := 0, formOpened := false,
      sentBody := none, contactSentAfter := session }
  else
    let name := jsTrim name
    let email := jsTrim email
    let subject := jsTrim subject
    let message := jsTrim message
    if name = "" ∨ email = "" ∨ subject = "" ∨ message = "" then
      { outcome := .validationFailure "All fields are required.", fetchCalls := 0,
        formOpened := true, sentBody := none, contactSentAfter := session }
    else if emailRegexTest email = false then
      { outcome := .validationFailure "Please enter a valid email address.", fetchCalls := 0,
        formOpened := true, sentBody := none, contactSentAfter := session }
    else
      let sent := clientPostJson name email subject message
      match fetch with
      | .networkError =>
        { outcome := .validationFailure (surfacedMessage "Failed to fetch"), fetchCalls := 1,
          formOpened := true, sentBody := some sent, contactSentAfter := session }
      | .response ok json =>
        if ok = false ∨ json.success = false then
          { outcome := .validationFailure (surfacedMessage (jsOrStr (json.message.getD "") "Failed to send message.")),
            fetchCalls := 1, formOpened := true, sentBody := some sent,
            contactSentAfter := session }
        else
          { outcome := .success, fetchCalls := 1, formOpened := true,
            sentBody := some sent, contactSentAfter := some "true" }

/-- How the server parses the client's JSON body into `req.body`: each field
is looked up by key. -/
def parsePost (kvs : List (String × String)) : RequestBody :=
  { name := kvs.lookup "name", email := kvs.lookup "email",
    phone := kvs.lookup "phone", subject := kvs.lookup "subject",
    message := kvs.lookup "message" }

/-!
## Helper lemmas
-/

theorem ruleErrors_of_pos {c : Prop} [Decidable c] (h : c) (p m : String) :
    ruleErrors c p m = [⟨p, m⟩] := if_pos h

theorem mem_ruleErrors {c : Prop} [Decidable c] (h : c) (p m : String) :
    (⟨p, m⟩ : FieldError) ∈ ruleErrors c p m := by
  rw [ruleErrors_of_pos h]
  exact List.mem_singleton_self _

theorem mem_validationErrors_name {b : RequestBody} (h : trimmedField b.name = "") :
    (⟨"name", "Name is required."⟩ : FieldError) ∈ validationErrors b := by
  unfold validationErrors
  exact List.mem_append_left _ (List.mem_append_left _ (List.mem_append_left _
    (List.mem_append_left _ (List.mem_append_left _ (List.mem_append_left _
    (List.mem_append_left _ (mem_ruleErrors h _ _)))))))

theorem mem_validationErrors_email {b : RequestBody}
    (h : isEmail (trimmedField b.email) = false) :
    (⟨"email", "A valid email is required."⟩ : FieldError) ∈ validationErrors b := by
  unfold validationErrors
  exact List.mem_append_left _ (List.mem_append_left _ (List.mem_append_left _
    (List.mem_append_left _ (List.mem_append_left _
    (List.mem_append_right _ (mem_ruleErrors h _ _))))))

theorem mem_validationErrors_phone {b : RequestBody}
    (h : 30 < (trimmedField b.phone).length) :
    (⟨"phone", defaultMsg⟩ : FieldError) ∈ validationErrors b := by
  unfold validationErrors
  exact List.mem_append_left _ (List.mem_append_left _ (List.mem_append_left _
    (List.mem_append_left _ (List.mem_append_right _ (mem_ruleErrors h _ _)))))

theorem mem_validationErrors_message {b : RequestBody} (h : trimmedField b.message = "") :
    (⟨"message", "Message is required."⟩ : FieldError) ∈ validationErrors b := by
  unfold validationErrors
  exact List.mem_append_left _ (List.mem_append_left _ (List.mem_append_left _
    (List.mem_append_right _ (mem_ruleErrors h _ _))))

theorem mem_validationErrors_subject {b : RequestBody} (h : trimmedField b.subject = "") :
    (⟨"subject", "Subject is required."⟩ : FieldError) ∈ validationErrors b := by
  unfold validationErrors
  exact List.mem_append_left _ (List.mem_append_right _ (mem_ruleErrors h _ _))

theorem handleSubmit_invalid {b : RequestBody} (hne : validationErrors b ≠ [])
    (d : DispatchResult) (today : String) :
    handleSubmit b d today =
      { status := 400, body := .errorsBody (validationErrors b),
        dispatchCalls := 0, sentHtml := none, sentSubject := none } := by
  have h : ¬ ((validationErrors b).isEmpty = true) := by
    simpa [List.isEmpty_iff] using hne
  simp only [handleSubmit]
  rw [if_neg h]

theorem handleSubmit_sentHtml {b : RequestBody} (hv : validationErrors b = [])
    (d : DispatchResult) (today : String) :
    (handleSubmit b d today).sentHtml =
      some (emailHtml (xss (trimmedField b.name)) (xss (normalizeEmail (trimmedField b.email)))
        (formatPhone (xss (jsOrStr (trimmedField b.phone) ""))) today
        (xss (trimmedField b.message))) := by
  cases d <;> simp [handleSubmit, hv]

theorem handleSubmit_dispatchCalls_one {b : RequestBody} (hv : validationErrors b = [])
    (d : DispatchResult) (today : String) :
    (handleSubmit b d today).dispatchCalls = 1 := by
  cases d <;> simp [handleSubmit, hv]

theorem escapeChar_no_lt (c : Char) : '<' ∉ escapeChar c := by
  unfold escapeChar
  by_cases h1 : c = '<'
  · rw [if_pos h1]; decide
  · rw [if_neg h1]
    by_cases h2 : c = '>'
    · rw [if_pos h2]; decide
    · rw [if_neg h2]
      intro hm
      rw [List.mem_singleton] at hm
      exact h1 hm.symm

theorem xss_no_lt (s : String) : '<' ∉ (xss s).data := by
  intro h
  have h' : '<' ∈ s.data.flatMap escapeChar := h
  rcases List.mem_flatMap.mp h' with ⟨c, _, hc⟩
  exact escapeChar_no_lt c hc

theorem isPrefixOf_cons_mem {c : Char} {p l : List Char}
    (h : (c :: p).isPrefixOf l = true) : c ∈ l := by
  cases l with
  | nil => simp [List.isPrefixOf] at h
  | cons b bs =>
    have hcb : c = b := by
      simp [List.isPrefixOf] at h
      exact h.1
    exact hcb ▸ List.mem_cons_self b bs

/-- The sanitizer's output never contains an opening script tag: it contains
no markup delimiter at all. -/
theorem xss_no_script (s : String) : containsSubstr (xss s) "<script" = false := by
  unfold containsSubstr
  rw [List.any_eq_false]
  intro i _
  intro hp
  have hp' : ('<' :: "script".data).isPrefixOf ((xss s).data.drop i) = true := hp
  have hm : '<' ∈ ((xss s).data.drop i) := isPrefixOf_cons_mem hp'
  exact xss_no_lt s (List.mem_of_mem_drop hm)

/-- A valid submission, used as concrete input by several witnesses. -/
def janeBody : RequestBody :=
  { name := some "Jane Doe", email := some "jane@example.com", phone := some "4045551234",
    subject := some "Hello", message := some "Hi there" }

/-!
## The claims
-/

/-- C1: for every submission in which any of the required fields name,
email, subject, message is missing or empty after trimming, the handler
returns HTTP 400 whose body lists the validation errors, at least one error
entry references each missing field, and no email dispatch is attempted
(the dispatch-call count is 0). A missing field reaches the validators as
the empty string, so the same statement covers absent and blank fields. -/
theorem C1_missing_required_fields (b : RequestBody) (d : DispatchResult) (today : String)
    (h : trimmedField b.name = "" ∨ trimmedField b.email = "" ∨
         trimmedField b.subject = "" ∨ trimmedField b.message = "") :
    (handleSubmit b d today).status = 400 ∧
    (handleSubmit b d today).dispatchCalls = 0 ∧
    (handleSubmit b d today).body = .errorsBody (validationErrors b) ∧
    (trimmedField b.name = "" → ∃ e ∈ validationErrors b, e.param = "name") ∧
    (trimmedField b.email = "" → ∃ e ∈ validationErrors b, e.param = "email") ∧
    (trimmedField b.subject = "" → ∃ e ∈ validationErrors b, e.param = "subject") ∧
    (trimmedField b.message = "" → ∃ e ∈ validationErrors b, e.param = "message") := by
  have hne : validationErrors b ≠ [] := by
    rcases h with h | h | h | h
    · exact List.ne_nil_of_mem (mem_validationErrors_name h)
    · exact List.ne_nil_of_mem (mem_validationErrors_email (by rw [h]; decide))
    · exact List.ne_nil_of_mem (mem_validationErrors_subject h)
    · exact List.ne_nil_of_mem (mem_validationErrors_message h)
  rw [handleSubmit_invalid hne]
  refine ⟨rfl, rfl, rfl, ?_, ?_, ?_, ?_⟩
  · intro h1; exact ⟨_, mem_validationErrors_name h1, rfl⟩
  · intro h1; exact ⟨_, mem_validationErrors_email (by rw [h1]; decide), rfl⟩
  · intro h1; exact ⟨_, mem_validationErrors_subject h1, rfl⟩
  · intro h1; exact ⟨_, mem_validationErrors_message h1, rfl⟩

/-- Witness for C1: a submission with the name absent and the message blank
is rejected with 400, with error entries naming both fields, and dispatches
nothing. -/
theorem C1_witness :
    (handleSubmit { janeBody with name := none, message := some "   " } .ok "2026-10-11").status
        = 400 ∧
    (handleSubmit { janeBody with name := none, message := some "   " } .ok "2026-10-11").dispatchCalls
        = 0 ∧
    (∃ e ∈ validationErrors { janeBody with name := none, message := some "   " },
        e.param = "name") ∧
    (∃ e ∈ validationErrors { janeBody with name := none, message := some "   " },
        e.param = "message") := by
  have h := C1_missing_required_fields { janeBody with name := none, message := some "   " }
    .ok "2026-10-11" (Or.inl (by decide))
  exact ⟨h.1, h.2.1, h.2.2.2.1 (by decide), h.2.2.2.2.2.2 (by decide)⟩

/-- C3: for every request passing validation, the handler answers exactly
HTTP 200 with success true and the fixed message when the dispatch succeeds,
and exactly HTTP 500 with success false and the fixed message when it fails;
the whole result is the same for every transport error detail, so the detail
never appears in the response body. -/
theorem C3_dispatch_outcome (b : RequestBody) (today : String)
    (hv : validationErrors b = []) :
    ((handleSubmit b .ok today).status = 200 ∧
      (handleSubmit b .ok today).body = .msgBody true "Message sent successfully.") ∧
    (∀ e : String, (handleSubmit b (.fail e) today).status = 500 ∧
      (handleSubmit b (.fail e) today).body = .msgBody false "Failed to send message.") ∧
    (∀ e₁ e₂ : String, handleSubmit b (.fail e₁) today = handleSubmit b (.fail e₂) today) := by
  refine ⟨⟨?_, ?_⟩, fun e => ⟨?_, ?_⟩, fun e₁ e₂ => ?_⟩ <;> simp [handleSubmit, hv]

/-- Witness for C3: on the valid submission the success path answers 200 and
the failing path answers 500 with the fixed message, whatever the internal
transport error said. -/
theorem C3_witness :
    (handleSubmit janeBody .ok "2026-10-11").status = 200 ∧
    (handleSubmit janeBody .ok "2026-10-11").body
        = .msgBody true "Message sent successfully." ∧
    (handleSubmit janeBody (.fail "Invalid login: 535-5.7.8") "2026-10-11").status = 500 ∧
    (handleSubmit janeBody (.fail "Invalid login: 535-5.7.8") "2026-10-11").body
        = .msgBody false "Failed to send message." := by
  have h := C3_dispatch_outcome janeBody "2026-10-11" (by decide)
  exact ⟨h.1.1, h.1.2, (h.2.1 "Invalid login: 535-5.7.8").1, (h.2.1 "Invalid login: 535-5.7.8").2⟩

/-- C4: for every input whose non-digit characters, once stripped, leave
exactly ten digits, `formatPhone` returns those digits grouped 3-3-4 with
dashes; for every other input it returns the literal "None Provided". -/
theorem C4_formatPhone_spec (s : String) :
    (∀ a b c x y z u v w t : Char,
        s.data.filter Char.isDigit = [a, b, c, x, y, z, u, v, w, t] →
        formatPhone s = ⟨[a, b, c, '-', x, y, z, '-', u, v, w, t]⟩) ∧
    ((s.data.filter Char.isDigit).length ≠ 10 → formatPhone s = "None Provided") := by
  constructor
  · intro a b c x y z u v w t h
    unfold formatPhone
    rw [h]
    rfl
  · intro h
    unfold formatPhone
    simp only [h]
    simp

/-- Witness for C4: a ten-digit input with punctuation is formatted, and a
seven-digit input falls back to "None Provided". -/
theorem C4_witness :
    formatPhone "(404) 555-1234" = "404-555-1234" ∧
    formatPhone "555-1234" = "None Provided" := by
  constructor
  · exact ((C4_formatPhone_spec "(404) 555-1234").1 '4' '0' '4' '5' '5' '5' '1' '2' '3' '4'
      (by decide)).trans (by decide)
  · exact (C4_formatPhone_spec "555-1234").2 (by decide)

/-- C5: for every payload passing validation whose message contains a
script tag, the outbound email's html embeds every field only after it has
passed through the `xss` sanitizer (and the subject handed to the mailer is
sanitized too), and the sanitized message value contains no script tag. -/
theorem C5_sanitized_no_script (b : RequestBody) (d : DispatchResult) (today : String)
    (hv : validationErrors b = [])
    (_hscript : containsSubstr (trimmedField b.message) "<script" = true) :
    (handleSubmit b d today).sentHtml =
      some (emailHtml (xss (trimmedField b.name)) (xss (normalizeEmail (trimmedField b.email)))
        (formatPhone (xss (jsOrStr (trimmedField b.phone) ""))) today
        (xss (trimmedField b.message))) ∧
    (handleSubmit b d today).sentSubject = some (xss (trimmedField b.subject)) ∧
    containsSubstr (xss (trimmedField b.message)) "<script" = false := by
  refine ⟨handleSubmit_sentHtml hv d today, ?_, xss_no_script _⟩
  cases d <;> simp [handleSubmit, hv]

/-- Witness for C5: a payload with a script tag in the message is
dispatched with a sanitized message free of script tags. -/
theorem C5_witness :
    containsSubstr
      (trimmedField ({ janeBody with message := some "<script>alert(1)</script>" }).message)
      "<script" = true ∧
    containsSubstr
      (xss (trimmedField ({ janeBody with message := some "<script>alert(1)</script>" }).message))
      "<script" = false := by
  refine ⟨by decide, ?_⟩
  exact (C5_sanitized_no_script { janeBody with message := some "<script>alert(1)</script>" }
    .ok "2026-10-11" (by decide) (by decide)).2.2

/-- C6: every submission whose email does not satisfy the local at domain
dot tld syntax is rejected with HTTP 400 carrying an email error entry, and
no email is dispatched. -/
theorem C6_invalid_email_rejected (b : RequestBody) (d : DispatchResult) (today : String)
    (h : isEmail (trimmedField b.email) = false) :
    (handleSubmit b d today).status = 400 ∧
    (handleSubmit b d today).dispatchCalls = 0 ∧
    (handleSubmit b d today).body = .errorsBody (validationErrors b) ∧
    (⟨"email", "A valid email is required."⟩ : FieldError) ∈ validationErrors b := by
  have hmem := mem_validationErrors_email (b := b) h
  rw [handleSubmit_invalid (List.ne_nil_of_mem hmem)]
  exact ⟨rfl, rfl, rfl, hmem⟩

/-- Witness for C6: an email with no dot in its domain is rejected with 400
and nothing is dispatched. -/
theorem C6_witness :
    (handleSubmit { janeBody with email := some "jane@example" } .ok "2026-10-11").status = 400 ∧
    (handleSubmit { janeBody with email := some "jane@example" } .ok "2026-10-11").dispatchCalls
        = 0 := by
  have h := C6_invalid_email_rejected { janeBody with email := some "jane@example" }
    .ok "2026-10-11" (by decide)
  exact ⟨h.1, h.2.1⟩

/-- C10: a submission whose phone field still exceeds 30 characters after
trimming is rejected with HTTP 400 carrying a phone error entry and no email
is dispatched, whatever the other fields contain — the optional phone field
alone suffices to reject the submission. -/
theorem C10_overlong_phone_rejected (b : RequestBody) (d : DispatchResult) (today : String)
    (h : 30 < (trimmedField b.phone).length) :
    (handleSubmit b d today).status = 400 ∧
    (handleSubmit b d today).dispatchCalls = 0 ∧
    (handleSubmit b d today).body = .errorsBody (validationErrors b) ∧
    (⟨"phone", defaultMsg⟩ : FieldError) ∈ validationErrors b := by
  have hmem := mem_validationErrors_phone (b := b) h
  rw [handleSubmit_invalid (List.ne_nil_of_mem hmem)]
  exact ⟨rfl, rfl, rfl, hmem⟩

/-- Witness for C10: an otherwise fully valid submission with a 31-character
phone value is rejected with 400 and dispatches nothing. -/
theorem C10_witness :
    (handleSubmit { janeBody with phone := some "1234567890123456789012345678901" }
        .ok "2026-10-11").status = 400 ∧
    (handleSubmit { janeBody with phone := some "1234567890123456789012345678901" }
        .ok "2026-10-11").dispatchCalls = 0 := by
  have h := C10_overlong_phone_rejected
    { janeBody with phone := some "1234567890123456789012345678901" } .ok "2026-10-11" (by decide)
  exact ⟨h.1, h.2.1⟩

/-- C2: for any six submissions from one client address whose timestamps
all fall inside one sliding 15-minute window, the first five (with valid
payloads) pass the limiter and each dispatches exactly one email, while the
sixth is answered by the limiter's fixed 429 reply without dispatching —
the per-endpoint cap is five accepted requests per address. -/
theorem C2_rate_limit_window (t1 t2 t3 t4 t5 t6 : Nat)
    (b1 b2 b3 b4 b5 b6 : RequestBody) (d1 d2 d3 d4 d5 d6 : DispatchResult) (today : String)
    (h12 : t1 ≤ t2) (h23 : t2 ≤ t3) (h34 : t3 ≤ t4) (h45 : t4 ≤ t5) (h56 : t5 ≤ t6)
    (hw : t6 < t1 + windowMs)
    (hv1 : validationErrors b1 = []) (hv2 : validationErrors b2 = [])
    (hv3 : validationErrors b3 = []) (hv4 : validationErrors b4 = [])
    (hv5 : validationErrors b5 = []) :
    processContact [] today
        [(t1, b1, d1), (t2, b2, d2), (t3, b3, d3), (t4, b4, d4), (t5, b5, d5), (t6, b6, d6)] =
      [handleSubmit b1 d1 today, handleSubmit b2 d2 today, handleSubmit b3 d3 today,
       handleSubmit b4 d4 today, handleSubmit b5 d5 today, rateLimitedResult] ∧
    (handleSubmit b1 d1 today).dispatchCalls = 1 ∧
    (handleSubmit b2 d2 today).dispatchCalls = 1 ∧
    (handleSubmit b3 d3 today).dispatchCalls = 1 ∧
    (handleSubmit b4 d4 today).dispatchCalls = 1 ∧
    (handleSubmit b5 d5 today).dispatchCalls = 1 ∧
    rateLimitedResult.dispatchCalls = 0 ∧
    rateLimitedResult.status = 429 ∧
    rateLimitedResult.body = .rateLimited contactLimiterMessage := by
  have w21 : withinWindow t2 t1 = true := by
    simp only [withinWindow, decide_eq_true_eq]; omega
  have w31 : withinWindow t3 t1 = true := by
    simp only [withinWindow, decide_eq_true_eq]; omega
  have w32 : withinWindow t3 t2 = true := by
    simp only [withinWindow, decide_eq_true_eq]; omega
  have w41 : withinWindow t4 t1 = true := by
    simp only [withinWindow, decide_eq_true_eq]; omega
  have w42 : withinWindow t4 t2 = true := by
    simp only [withinWindow, decide_eq_true_eq]; omega
  have w43 : withinWindow t4 t3 = true := by
    simp only [withinWindow, decide_eq_true_eq]; omega
  have w51 : withinWindow t5 t1 = true := by
    simp only [withinWindow, decide_eq_true_eq]; omega
  have w52 : withinWindow t5 t2 = true := by
    simp only [withinWindow, decide_eq_true_eq]; omega
  have w53 : withinWindow t5 t3 = true := by
    simp only [withinWindow, decide_eq_true_eq]; omega
  have w54 : withinWindow t5 t4 = true := by
    simp only [withinWindow, decide_eq_true_eq]; omega
  have w61 : withinWindow t6 t1 = true := by
    simp only [withinWindow, decide_eq_true_eq]; omega
  have w62 : withinWindow t6 t2 = true := by
    simp only [withinWindow, decide_eq_true_eq]; omega
  have w63 : withinWindow t6 t3 = true := by
    simp only [withinWindow, decide_eq_true_eq]; omega
  have w64 : withinWindow t6 t4 = true := by
    simp only [withinWindow, decide_eq_true_eq]; omega
  have w65 : withinWindow t6 t5 = true := by
    simp only [withinWindow, decide_eq_true_eq]; omega
  have s1 : contactEndpointStep [] t1 b1 d1 today = (handleSubmit b1 d1 today, [t1]) := by
    simp [contactEndpointStep, contactLimiterMax]
  have s2 : contactEndpointStep [t1] t2 b2 d2 today = (handleSubmit b2 d2 today, [t2, t1]) := by
    simp [contactEndpointStep, contactLimiterMax, List.filter, w21]
  have s3 : contactEndpointStep [t2, t1] t3 b3 d3 today
      = (handleSubmit b3 d3 today, [t3, t2, t1]) := by
    simp [contactEndpointStep, contactLimiterMax, List.filter, w31, w32]
  have s4 : contactEndpointStep [t3, t2, t1] t4 b4 d4 today
      = (handleSubmit b4 d4 today, [t4, t3, t2, t1]) := by
    simp [contactEndpointStep, contactLimiterMax, List.filter, w41, w42, w43]
  have s5 : contactEndpointStep [t4, t3, t2, t1] t5 b5 d5 today
      = (handleSubmit b5 d5 today, [t5, t4, t3, t2, t1]) := by
    simp [contactEndpointStep, contactLimiterMax, List.filter, w51, w52, w53, w54]
  have s6 : contactEndpointStep [t5, t4, t3, t2, t1] t6 b6 d6 today
      = (rateLimitedResult, [t5, t4, t3, t2, t1]) := by
    simp [contactEndpointStep, contactLimiterMax, List.filter, w61, w62, w63, w64, w65]
  refine ⟨?_, handleSubmit_dispatchCalls_one hv1 d1 today,
    handleSubmit_dispatchCalls_one hv2 d2 today, handleSubmit_dispatchCalls_one hv3 d3 today,
    handleSubmit_dispatchCalls_one hv4 d4 today, handleSubmit_dispatchCalls_one hv5 d5 today,
    rfl, rfl, rfl⟩
  simp only [processContact, s1, s2, s3, s4, s5, s6]

/-- Witness for C2: six valid submissions at one-millisecond intervals; the
first five dispatch once each, the sixth gets the fixed 429 reply. -/
theorem C2_witness :
    processContact [] "2026-10-11"
        [(0, janeBody, .ok), (1, janeBody, .ok), (2, janeBody, .ok),
         (3, janeBody, .ok), (4, janeBody, .ok), (5, janeBody, .ok)] =
      [handleSubmit janeBody .ok "2026-10-11", handleSubmit janeBody .ok "2026-10-11",
       handleSubmit janeBody .ok "2026-10-11", handleSubmit janeBody .ok "2026-10-11",
       handleSubmit janeBody .ok "2026-10-11", rateLimitedResult] ∧
    (handleSubmit janeBody .ok "2026-10-11").dispatchCalls = 1 ∧
    rateLimitedResult.status = 429 := by
  have h := C2_rate_limit_window 0 1 2 3 4 5 janeBody janeBody janeBody janeBody janeBody janeBody
    .ok .ok .ok .ok .ok .ok "2026-10-11"
    (by decide) (by decide) (by decide) (by decide) (by decide) (by decide)
    (by decide) (by decide) (by decide) (by decide) (by decide)
  exact ⟨h.1, h.2.1, h.2.2.2.2.2.2.2.1⟩

/-- C7: whenever the session flag `contactSent` is truthy (as it is after
one confirmed success, which stores the string "true"), every further
invocation of the submit flow ends in the AlreadySent outcome without
opening the form, without any fetch call, and without sending any body. -/
theorem C7_already_sent_short_circuit (session : Option String)
    (name email subject message : String) (fetch : FetchResult)
    (h : jsTruthy session = true) :
    (openContactForm session name email subject message fetch).outcome = .alreadySent ∧
    (openContactForm session name email subject message fetch).fetchCalls = 0 ∧
    (openContactForm session name email subject message fetch).formOpened = false ∧
    (openContactForm session name email subject message fetch).sentBody = none := by
  simp [openContactForm, h]

/-- Witness for C7: with the flag set to "true" the flow short-circuits and
performs no network request. -/
theorem C7_witness :
    (openContactForm (some "true") "Jane" "jane@example.com" "Hi" "Hello"
        .networkError).outcome = .alreadySent ∧
    (openContactForm (some "true") "Jane" "jane@example.com" "Hi" "Hello"
        .networkError).fetchCalls = 0 := by
  have h := C7_already_sent_short_circuit (some "true") "Jane" "jane@example.com" "Hi" "Hello"
    .networkError (by decide)
  exact ⟨h.1, h.2.1⟩

/-- C8 counterexample: the claim promises that a server-returned failure
message is surfaced verbatim and that the network-unreachable message is
distinct from any server-returned failure. A server failure whose message is
the literal "Failed to fetch" refutes both at once: the client shows
"Network error. Please check your connection." instead of the verbatim
message. -/
theorem C8_counterexample :
    (openContactForm none "Jane" "jane@example.com" "Hi" "Hello"
        (.response false { success := false, message := some "Failed to fetch" })).outcome =
      .validationFailure "Network error. Please check your connection." ∧
    ("Network error. Please check your connection." : String) ≠ "Failed to fetch" := by
  constructor
  · decide
  · decide

/-- C8 amended: an HTTP non-2xx status or a success-false body is treated as
failure; the server's message is surfaced verbatim provided it is non-empty
and not the literal "Failed to fetch" (which the catch block cannot
distinguish from a fetch-level failure); an absent or empty message yields
the generic "Failed to send message."; a fetch-level network-unreachable
condition is surfaced as the distinct "Network error. Please check your
connection." message. -/
theorem C8_amended_failure_surfacing (name email subject message : String)
    (hn : jsTrim name ≠ "") (he : jsTrim email ≠ "") (hs : jsTrim subject ≠ "")
    (hm : jsTrim message ≠ "") (hr : emailRegexTest (jsTrim email) = true) :
    (∀ (ok : Bool) (j : ServerJson) (m : String), (ok = false ∨ j.success = false) →
        j.message = some m → m ≠ "" → m ≠ "Failed to fetch" →
        (openContactForm none name email subject message (.response ok j)).outcome =
          .validationFailure m) ∧
    (∀ (ok : Bool) (j : ServerJson), (ok = false ∨ j.success = false) →
        (j.message = none ∨ j.message = some "") →
        (openContactForm none name email subject message (.response ok j)).outcome =
          .validationFailure "Failed to send message.") ∧
    ((openContactForm none name email subject message .networkError).outcome =
      .validationFailure "Network error. Please check your connection.") := by
  have hgen : ("Failed to send message." : String) ≠ "Failed to fetch" := by decide
  refine ⟨?_, ?_, ?_⟩
  · intro ok j m hfail hmsg hm1 hm2
    rcases hfail with hf | hf <;>
      simp [openContactForm, jsTruthy, hn, he, hs, hm, hr, hf, hmsg,
        surfacedMessage, jsOrStr, hm1, hm2]
  · intro ok j hfail hmsg
    rcases hfail with hf | hf <;> rcases hmsg with hmsg | hmsg <;>
      simp [openContactForm, jsTruthy, hn, he, hs, hm, hr, hf, hmsg,
        surfacedMessage, jsOrStr, hgen]
  · simp [openContactForm, jsTruthy, hn, he, hs, hm, hr, surfacedMessage]

/-- Witness for C8: a 500 reply with the fixed server message is surfaced
verbatim, a 400 reply without a message falls back to the generic text, and
a failed fetch is shown as the connection message. -/
theorem C8_witness :
    (openContactForm none "Jane" "jane@example.com" "Hi" "Hello"
        (.response false { success := false, message := some "Failed to send message." })).outcome =
      .validationFailure "Failed to send message." ∧
    (openContactForm none "Jane" "jane@example.com" "Hi" "Hello"
        (.response false { success := false, message := none })).outcome =
      .validationFailure "Failed to send message." ∧
    (openContactForm none "Jane" "jane@example.com" "Hi" "Hello" .networkError).outcome =
      .validationFailure "Network error. Please check your connection." := by
  have h := C8_amended_failure_surfacing "Jane" "jane@example.com" "Hi" "Hello"
    (by decide) (by decide) (by decide) (by decide) (by decide)
  exact ⟨h.1 false _ "Failed to send message." (Or.inl rfl) rfl (by decide) (by decide),
    h.2.1 false _ (Or.inl rfl) (Or.inl rfl), h.2.2⟩

/-- C9: whenever the client flow performs its fetch, the JSON body it sends
has exactly the keys name, email, subject, message — never a phone key — so
the server parses no phone field, the handler's `req.body.phone || ""`
defaults to the empty string, and any email dispatched for such a body
embeds "None Provided" as the formatted phone. -/
theorem C9_client_body_no_phone (session : Option String)
    (name email subject message : String) (fetch : FetchResult)
    (kvs : List (String × String))
    (hsent : (openContactForm session name email subject message fetch).sentBody = some kvs) :
    kvs.map Prod.fst = ["name", "email", "subject", "message"] ∧
    kvs.lookup "phone" = none ∧
    (parsePost kvs).phone = none ∧
    (∀ (d : DispatchResult) (today : String), validationErrors (parsePost kvs) = [] →
      ∃ n e m, (handleSubmit (parsePost kvs) d today).sentHtml =
        some (emailHtml n e "None Provided" today m)) := by
  have hkvs : kvs = clientPostJson (jsTrim name) (jsTrim email) (jsTrim subject)
      (jsTrim message) := by
    by_cases h1 : jsTruthy session = true
    · simp [openContactForm, h1] at hsent
    · rw [Bool.not_eq_true] at h1
      by_cases h2 : jsTrim name = "" ∨ jsTrim email = "" ∨ jsTrim subject = "" ∨
          jsTrim message = ""
      · simp [openContactForm, h1, h2] at hsent
      · by_cases h3 : emailRegexTest (jsTrim email) = false
        · simp [openContactForm, h1, h2, h3] at hsent
        · cases fetch with
          | networkError =>
            simp [openContactForm, h1, h2, h3] at hsent
            exact hsent.symm
          | response ok json =>
            by_cases h4 : ok = false ∨ json.success = false
            · simp [openContactForm, h1, h2, h3, h4] at hsent
              exact hsent.symm
            · simp [openContactForm, h1, h2, h3, h4] at hsent
              exact hsent.symm
  subst hkvs
  refine ⟨rfl, rfl, rfl, fun d today hv => ?_⟩
  rw [handleSubmit_sentHtml hv]
  exact ⟨_, _, _, rfl⟩

/-- Witness for C9: a concrete successful client run sends exactly the four
keys, and the handler on that body embeds "None Provided" as the phone. -/
theorem C9_witness :
    (clientPostJson "Jane" "jane@example.com" "Hi" "Hello").lookup "phone" = none ∧
    (∃ n e m,
      (handleSubmit (parsePost (clientPostJson "Jane" "jane@example.com" "Hi" "Hello"))
          .ok "2026-10-11").sentHtml = some (emailHtml n e "None Provided" "2026-10-11" m)) := by
  have h := C9_client_body_no_phone none "Jane" "jane@example.com" "Hi" "Hello"
    (.response true { success := true, message := some "Message sent successfully." })
    (clientPostJson "Jane" "jane@example.com" "Hi" "Hello") (by decide)
  exact ⟨h.2.1, h.2.2.2 .ok "2026-10-11" (by decide)⟩

example : formatPhone "(404) 555-1234" = "404-555-1234" := by decide
example : formatPhone "12345" = "None Provided" := by decide
example : isEmail "jane@example.com" = true := by decide
example : isEmail "" = false := by decide
example : isEmail "a@b" = false := by decide
example : xss "<script>hi</script>" = "&lt;script&gt;hi&lt;/script&gt;" := by decide
example :
    validationErrors
      { name := some "Jane Doe", email := some "jane@example.com", phone := none,
        subject := some "Hello", message := some "Hi there" } = [] := by decide
